import Mathlib

/-!
Shallow embedding of `src/source/detectors.cpp` (face detection /
facial landmarks demo built on an external inference engine).

Modelling conventions:
* C++ `float`/`double` values are embedded as `ℚ`.
* C++ `int` values are embedded as `ℤ`; a C cast `float -> int` truncates
  toward zero, embedded by `ftrunc`; C++ integer division truncates toward
  zero, embedded by `Int.tdiv`.
* Blob buffers are embedded as functions `ℕ → ℚ`.
* Calls into the external engine (`StartAsync`, `Infer`, `Wait`) are recorded
  as an explicit list of events.
-/

/-- Truncation of a rational toward zero, the semantics of a C cast from a
floating-point value to `int`. -/
def ftrunc (q : ℚ) : ℤ := q.num.tdiv q.den

/-- Whether an `Except` computation threw (`std::logic_error` in the source). -/
def isError {α : Type} : Except String α → Bool
  | .error _ => true
  | .ok _ => false

/-- `struct Result \x7b int label; float confidence; cv::Rect location; \x7d`:
`cv::Rect` carries integer `x`, `y`, `width`, `height`. -/
structure Result where
  label : ℤ
  confidence : ℚ
  x : ℤ
  y : ℤ
  width : ℤ
  height : ℤ
  deriving DecidableEq, Repr

namespace FaceDetection

/-- Set in the `FaceDetection` constructor and never changed. -/
def bb_enlarge_coefficient : ℚ := 1.2

/-- Body of one iteration of the loop in `FaceDetection::fetchResults`
(detectors.cpp lines 201-231): reads row `i` of the detection output blob,
scales the normalized corners by the frame extent (with truncation at each
assignment into the integer `cv::Rect` fields), then replaces the box by the
enlarged centered square. -/
def processRow (detections : ℕ → ℚ) (width height : ℤ) (objectSize i : ℕ) :
    Result :=
  let label := ftrunc (detections (i * objectSize + 1))
  let confidence := detections (i * objectSize + 2)
  let x := ftrunc (detections (i * objectSize + 3) * width)
  let y := ftrunc (detections (i * objectSize + 4) * height)
  let bb_width := ftrunc (detections (i * objectSize + 5) * width - x)
  let bb_height := ftrunc (detections (i * objectSize + 6) * height - y)
  let bb_center_x := x + bb_width.tdiv 2
  let bb_center_y := y + bb_height.tdiv 2
  let max_of_sizes := max bb_width bb_height
  let bb_new_width := ftrunc (bb_enlarge_coefficient * (max_of_sizes : ℚ))
  let bb_new_height := ftrunc (bb_enlarge_coefficient * (max_of_sizes : ℚ))
  { label := label
    confidence := confidence
    x := bb_center_x - bb_new_width.tdiv 2
    y := bb_center_y - bb_new_height.tdiv 2
    width := bb_new_width
    height := bb_new_height }

/-- The scan loop of `FaceDetection::fetchResults` (lines 200-244), with the
remaining iteration count as fuel and `i` the current row index: a row at or
below the threshold is skipped by `continue` before the sentinel test; an
above-threshold row with negative `image_id` breaks without being appended. -/
def fetchLoop (detections : ℕ → ℚ) (width height : ℤ)
    (detectionThreshold : ℚ) (objectSize : ℕ) : ℕ → ℕ → List Result
  | 0, _ => []
  | fuel + 1, i =>
    let image_id := detections (i * objectSize + 0)
    let confidence := detections (i * objectSize + 2)
    if confidence ≤ detectionThreshold then
      fetchLoop detections width height detectionThreshold objectSize fuel
        (i + 1)
    else
      let r := processRow detections width height objectSize i
      if image_id < 0 then []
      else
        r :: fetchLoop detections width height detectionThreshold objectSize
          fuel (i + 1)

/-- The list built by the loop of `FaceDetection::fetchResults`, scanning rows
`0, ..., maxProposalCount - 1` of the output blob. -/
def fetchResults (detections : ℕ → ℚ) (width height : ℤ)
    (detectionThreshold : ℚ) (maxProposalCount objectSize : ℕ) : List Result :=
  fetchLoop detections width height detectionThreshold objectSize
    maxProposalCount 0

/-- Claim-side description (C2): the truncated raw left edge of row `j`,
`int x = detections[j*objectSize+3] * width`. -/
def specRawX (detections : ℕ → ℚ) (width : ℤ) (objectSize j : ℕ) : ℤ :=
  ftrunc (detections (j * objectSize + 3) * width)

/-- Claim-side description (C2): the truncated raw top edge of row `j`. -/
def specRawY (detections : ℕ → ℚ) (height : ℤ) (objectSize j : ℕ) : ℤ :=
  ftrunc (detections (j * objectSize + 4) * height)

/-- Claim-side description (C2): the truncated raw width of row `j`. -/
def specRawWidth (detections : ℕ → ℚ) (width : ℤ) (objectSize j : ℕ) : ℤ :=
  ftrunc (detections (j * objectSize + 5) * width -
    specRawX detections width objectSize j)

/-- Claim-side description (C2): the truncated raw height of row `j`. -/
def specRawHeight (detections : ℕ → ℚ) (height : ℤ) (objectSize j : ℕ) : ℤ :=
  ftrunc (detections (j * objectSize + 6) * height -
    specRawY detections height objectSize j)

/-- Claim-side description (C2): the new square side, the integer truncation
of `bb_enlarge_coefficient` (1.2) times the maximum of the truncated raw
width and the truncated raw height. -/
def specSquareSide (detections : ℕ → ℚ) (width height : ℤ)
    (objectSize j : ℕ) : ℤ :=
  ftrunc (bb_enlarge_coefficient *
    ((max (specRawWidth detections width objectSize j)
      (specRawHeight detections height objectSize j) : ℤ) : ℚ))

/-- Claim-side description (C2): the old integer box center, horizontally. -/
def specCenterX (detections : ℕ → ℚ) (width : ℤ) (objectSize j : ℕ) : ℤ :=
  specRawX detections width objectSize j +
    (specRawWidth detections width objectSize j).tdiv 2

/-- Claim-side description (C2): the old integer box center, vertically. -/
def specCenterY (detections : ℕ → ℚ) (height : ℤ) (objectSize j : ℕ) : ℤ :=
  specRawY detections height objectSize j +
    (specRawHeight detections height objectSize j).tdiv 2

end FaceDetection

/-- Mutable state of a `FaceDetection` object, restricted to the fields the
class itself reads and writes (the inference request is external). -/
structure FaceDetectionState where
  enabled : Bool
  resultsFetched : Bool
  enquedFrames : ℕ
  width : ℤ
  height : ℤ
  results : List Result
  deriving Repr

namespace FaceDetection

/-- `FaceDetection::fetchResults` as a state transition (lines 193-245):
disabled detectors do nothing; otherwise `results` is cleared first, the
`resultsFetched` guard returns early, and only a first fetch after a submit
repopulates `results` from the output blob. -/
def fetchResultsStep (s : FaceDetectionState) (detections : ℕ → ℚ)
    (detectionThreshold : ℚ) (maxProposalCount objectSize : ℕ) :
    FaceDetectionState :=
  if s.enabled = false then s
  else
    let s1 := { s with results := ([] : List Result) }
    if s.resultsFetched then s1
    else
      { s1 with
        resultsFetched := true
        results := fetchResults detections s.width s.height detectionThreshold
          maxProposalCount objectSize }

/-- `FaceDetection::submitRequest` as a state transition (lines 93-99): a
no-op without an enqueued frame, otherwise it resets the frame count, the
`resultsFetched` flag and the stored results. -/
def submitRequestStep (s : FaceDetectionState) : FaceDetectionState :=
  if s.enquedFrames = 0 then s
  else { s with enquedFrames := 0, resultsFetched := false, results := [] }

end FaceDetection

/-- A concrete detection output blob: one row with `image_id = 0`, label `0`,
confidence `9/10`, and a full-frame box `(0,0)-(1,1)` in normalized
coordinates. -/
def det0 : ℕ → ℚ :=
  fun n => if n = 2 then 9 / 10 else if n = 5 then 1 else if n = 6 then 1 else 0

/-- The box produced from a full-frame detection of confidence `9/10` in a
100x100 frame: the enlarged centered square has side 120 and top-left
`(-10,-10)`. -/
def r0 : Result :=
  { label := 0, confidence := 9 / 10, x := -10, y := -10,
    width := 120, height := 120 }

/-- A concrete detection output blob with three rows (`objectSize = 7`):
row 0 is a retained full-frame detection with confidence `9/10`, row 1 has
confidence `0` and zero `image_id`, row 2 has confidence `1` and the negative
`image_id` sentinel. -/
def detMix : ℕ → ℚ :=
  fun n =>
    if n = 2 then 9 / 10
    else if n = 5 then 1
    else if n = 6 then 1
    else if n = 14 then -1
    else if n = 16 then 1
    else 0

/-- An inference-engine request call issued by the glue layer: the three
external calls are `StartAsync`, the blocking `Infer`, and the blocking
`Wait(RESULT_READY)`. -/
inductive InferCall where
  | startAsyncCall
  | inferCall
  | waitResultReady
  deriving DecidableEq, Repr

namespace BaseDetection

/-- `BaseDetection::submitRequest` (detectors.cpp lines 49-56), recorded as
the list of engine calls it issues: nothing when the detector is disabled or
has no request, otherwise exactly one call, `StartAsync` in async mode and
the blocking `Infer` otherwise. -/
def submitRequest (enabled hasRequest isAsync : Bool) : List InferCall :=
  if !enabled || !hasRequest then []
  else if isAsync then [InferCall.startAsyncCall]
  else [InferCall.inferCall]

/-- `BaseDetection::wait` (lines 58-62): the blocking `Wait` call happens only
for an enabled detector with a request in async mode. -/
def wait (enabled hasRequest isAsync : Bool) : List InferCall :=
  if !enabled || !hasRequest || !isAsync then []
  else [InferCall.waitResultReady]

end BaseDetection

/-- Metadata of the face-detection network as `FaceDetection::read` consumes
it: input and output map sizes, the type of the single output layer, its
optional `num_classes` attribute, and the output tensor dimensions. -/
structure FaceDetectionNetInfo where
  numInputs : ℕ
  numOutputs : ℕ
  outputLayerType : String
  num_classes : Option ℤ
  outputDims : List ℕ
  deriving DecidableEq, Repr

namespace FaceDetection

/-- `FaceDetection::read` (lines 118-191), restricted to its validation and
label logic: each malformed-metadata check throws `std::logic_error`
(embedded as `Except.error`); on success it yields the adjusted label list
together with `maxProposalCount` and `objectSize`. Note the source reads
`outputDims[2]` and `outputDims[3]` and performs the `objectSize != 7` check
before checking that the tensor has 4 dimensions. -/
def read (net : FaceDetectionNetInfo) (labels : List String) :
    Except String (List String × ℕ × ℕ) :=
  if net.numInputs ≠ 1 then
    .error "Face Detection network should have only one input"
  else if net.numOutputs ≠ 1 then
    .error "Face Detection network should have only one output"
  else if net.outputLayerType ≠ "DetectionOutput" then
    .error ("Face Detection network output layer should be DetectionOutput, but was "
      ++ net.outputLayerType)
  else
    match net.num_classes with
    | none =>
      .error "Face Detection network output layer should have num_classes integer attribute"
    | some num_classes =>
      let labels1 :=
        if (labels.length : ℤ) = num_classes then labels
        else if (labels.length : ℤ) = num_classes - 1 then "fake" :: labels
        else []
      let maxProposalCount := net.outputDims.getD 2 0
      let objectSize := net.outputDims.getD 3 0
      if objectSize ≠ 7 then
        .error "Face Detection network output layer should have 7 as a last dimension"
      else if net.outputDims.length ≠ 4 then
        .error "Face Detection network output dimensions not compatible shoulld be 4"
      else .ok (labels1, maxProposalCount, objectSize)

end FaceDetection

/-- Metadata of the landmarks network as `FacialLandmarksDetection::read`
consumes it: input and output map sizes and the name, type and out-size of
the single output layer. -/
structure FacialLandmarksNetInfo where
  numInputs : ℕ
  numOutputs : ℕ
  outputLayerName : String
  outputLayerType : String
  out_num : ℕ
  deriving DecidableEq, Repr

/-- Mutable state of a `FacialLandmarksDetection` object, restricted to the
fields the class itself reads and writes. -/
structure FacialLandmarksState where
  enabled : Bool
  hasRequest : Bool
  isBatchDynamic : Bool
  maxBatch : ℤ
  enquedFaces : ℤ
  deriving DecidableEq, Repr

namespace FacialLandmarksDetection

/-- Set in the `FacialLandmarksDetection` constructor and never changed. -/
def outputFacialLandmarksBlobName : String := "align_fc3"

/-- `FacialLandmarksDetection::read` (lines 295-359): the validation checks,
in source order, over the single output layer (the map of expected layer
names contains only `align_fc3`). -/
def read (net : FacialLandmarksNetInfo) : Except String Unit :=
  if net.numInputs ≠ 1 then
    .error "Facial Landmarks Estimation network should have only one input"
  else if net.numOutputs ≠ 1 then
    .error "Facial Landmarks Estimation network should have only one output"
  else if net.outputLayerName ≠ outputFacialLandmarksBlobName then
    .error ("Facial Landmarks Estimation network output layer unknown: "
      ++ net.outputLayerName ++ ", should be " ++ outputFacialLandmarksBlobName)
  else if net.outputLayerType ≠ "FullyConnected" then
    .error ("Facial Landmarks Estimation network output layer has invalid type: "
      ++ net.outputLayerType ++ ", should be FullyConnected")
  else if net.out_num ≠ 70 then
    .error "Facial Landmarks Estimation network output layer has invalid out-size, should be 70"
  else .ok ()

/-- `FacialLandmarksDetection::enqueue` (lines 263-280) as a state
transition: a disabled detector and a full batch both leave the state
unchanged; otherwise a request is (lazily) created and `enquedFaces` grows by
one. -/
def enqueue (s : FacialLandmarksState) : FacialLandmarksState :=
  if s.enabled = false then s
  else if s.enquedFaces = s.maxBatch then s
  else { s with hasRequest := true, enquedFaces := s.enquedFaces + 1 }

/-- `FacialLandmarksDetection::submitRequest` (lines 254-261) as a state
transition: a no-op with no enqueued faces, otherwise `enquedFaces` is reset
to zero after the submission. -/
def submitRequest (s : FacialLandmarksState) : FacialLandmarksState :=
  if s.enquedFaces = 0 then s
  else { s with enquedFaces := 0 }

/-- `FacialLandmarksDetection::operator[]` (lines 282-293): reads `n_lm` (the
first output blob dimension) consecutive values of the output buffer starting
at offset `n_lm * idx`, pushing them in increasing order of `i`. -/
def landmarks (normed_coordinates : ℕ → ℚ) (n_lm idx : ℕ) : List ℚ :=
  (List.range n_lm).map fun i => normed_coordinates (i + n_lm * idx)

end FacialLandmarksDetection

/-- The fields of `CallStat` (detectors.cpp lines 377-379; the
`_last_call_start` time point lives in the external clock and is replaced by
passing each measured duration explicitly). -/
structure CallStat where
  number_of_calls : ℕ
  total_duration : ℚ
  last_call_duration : ℚ
  smoothed_duration : ℚ
  deriving DecidableEq, Repr

namespace CallStat

/-- The `CallStat` constructor: zero calls, zero totals, and the sentinel
`-1` marking that no smoothed duration exists yet. -/
def init : CallStat :=
  { number_of_calls := 0, total_duration := 0, last_call_duration := 0,
    smoothed_duration := -1 }

/-- `CallStat::calculateDuration` (lines 395-405) with the measured duration
of this call passed in: counts the call, accumulates the total, seeds the
smoothed duration on its first use, then applies the exponential moving
average with `alpha = 0.1` (written here as `1 / 10`). -/
def calculateDuration (s : CallStat) (duration : ℚ) : CallStat :=
  let last_call_duration := duration
  let number_of_calls := s.number_of_calls + 1
  let total_duration := s.total_duration + last_call_duration
  let smoothed0 :=
    if s.smoothed_duration < 0 then last_call_duration
    else s.smoothed_duration
  let alpha : ℚ := 1 / 10
  { number_of_calls := number_of_calls
    total_duration := total_duration
    last_call_duration := last_call_duration
    smoothed_duration := smoothed0 * (1 - alpha) + last_call_duration * alpha }

/-- A sequence of calls to `calculateDuration`, one per measured duration. -/
def run (s : CallStat) (durations : List ℚ) : CallStat :=
  durations.foldl calculateDuration s

end CallStat


/-- A concrete landmark output buffer holding the value `n` at offset `n`. -/
def coords0 : ℕ → ℚ := fun n => (n : ℚ)

/-- A disabled landmarks detector with an empty batch. -/
def flDisabled : FacialLandmarksState :=
  { enabled := false, hasRequest := false, isBatchDynamic := false,
    maxBatch := 16, enquedFaces := 0 }

/-- An enabled landmarks detector with three enqueued faces out of 16. -/
def flEnabled : FacialLandmarksState :=
  { enabled := true, hasRequest := true, isBatchDynamic := false,
    maxBatch := 16, enquedFaces := 3 }

/-- An enabled landmarks detector whose batch is full. -/
def flFull : FacialLandmarksState :=
  { enabled := true, hasRequest := true, isBatchDynamic := false,
    maxBatch := 16, enquedFaces := 16 }


/-- Evaluation of the fetch loop on `det0` with a 100x100 frame and
threshold `1/2`: the single raw box `(0,0)-(100,100)` becomes the square of
side `⌊1.2 * 100⌋ = 120` centered at `(50,50)`, i.e. top-left `(-10,-10)`. -/
theorem det0_fetchResults_eval :
    FaceDetection.fetchResults det0 100 100 (1 / 2) 1 7 =
      [r0] := by
  show FaceDetection.fetchLoop det0 100 100 (1 / 2) 7 1 0 = _
  rw [FaceDetection.fetchLoop]
  norm_num [det0, FaceDetection.fetchLoop, FaceDetection.processRow, ftrunc,
    FaceDetection.bb_enlarge_coefficient, r0]
  decide

/-- Every element the fetch loop appends is `processRow` of some row whose
confidence exceeds the threshold. -/
theorem mem_fetchLoop (detections : ℕ → ℚ) (width height : ℤ)
    (detectionThreshold : ℚ) (objectSize : ℕ) :
    ∀ fuel i r,
      r ∈ FaceDetection.fetchLoop detections width height detectionThreshold
        objectSize fuel i →
      ∃ j, detectionThreshold < detections (j * objectSize + 2) ∧
        r = FaceDetection.processRow detections width height objectSize j := by
  intro fuel
  induction fuel with
  | zero =>
    intro i r h
    simp [FaceDetection.fetchLoop] at h
  | succ n ih =>
    intro i r h
    rw [FaceDetection.fetchLoop] at h
    by_cases hc :
        detections (i * objectSize + 2) ≤ detectionThreshold
    · rw [if_pos hc] at h
      exact ih (i + 1) r h
    · rw [if_neg hc] at h
      by_cases hid : detections (i * objectSize + 0) < 0
      · rw [if_pos hid] at h
        simp at h
      · rw [if_neg hid] at h
        rcases List.mem_cons.mp h with h1 | h2
        · exact ⟨i, lt_of_not_le hc, h1⟩
        · exact ih (i + 1) r h2

/-- Claim C2: every detection retained by `FaceDetection::fetchResults` is a
square whose side is the truncation of 1.2 times the maximum of the truncated
raw width and height, placed so that its top-left corner is the old integer
box center minus half the new side. -/
theorem fetchResults_box_is_enlarged_square (detections : ℕ → ℚ)
    (width height : ℤ) (detectionThreshold : ℚ)
    (maxProposalCount objectSize : ℕ) (r : Result)
    (hr : r ∈ FaceDetection.fetchResults detections width height
      detectionThreshold maxProposalCount objectSize) :
    ∃ j,
      r.width = FaceDetection.specSquareSide detections width height
          objectSize j ∧
      r.height = FaceDetection.specSquareSide detections width height
          objectSize j ∧
      r.x = FaceDetection.specCenterX detections width objectSize j -
          (FaceDetection.specSquareSide detections width height
            objectSize j).tdiv 2 ∧
      r.y = FaceDetection.specCenterY detections height objectSize j -
          (FaceDetection.specSquareSide detections width height
            objectSize j).tdiv 2 := by
  obtain ⟨j, -, rfl⟩ :=
    mem_fetchLoop detections width height detectionThreshold objectSize
      maxProposalCount 0 r hr
  refine ⟨j, ?_, ?_, ?_, ?_⟩ <;>
    simp [FaceDetection.processRow, FaceDetection.specSquareSide,
      FaceDetection.specRawWidth, FaceDetection.specRawHeight,
      FaceDetection.specRawX, FaceDetection.specRawY,
      FaceDetection.specCenterX, FaceDetection.specCenterY]

/-- Witness for C2 at the concrete blob `det0`: the retained box
`(-10,-10) 120x120` satisfies the enlarged-centered-square description. -/
theorem fetchResults_box_is_enlarged_square_witness :
    ∃ j,
      (120 : ℤ) = FaceDetection.specSquareSide det0 100 100 7 j ∧
      (120 : ℤ) = FaceDetection.specSquareSide det0 100 100 7 j ∧
      (-10 : ℤ) = FaceDetection.specCenterX det0 100 7 j -
          (FaceDetection.specSquareSide det0 100 100 7 j).tdiv 2 ∧
      (-10 : ℤ) = FaceDetection.specCenterY det0 100 7 j -
          (FaceDetection.specSquareSide det0 100 100 7 j).tdiv 2 :=
  fetchResults_box_is_enlarged_square det0 100 100 (1 / 2) 1 7
    r0
    (by rw [det0_fetchResults_eval]; exact List.mem_singleton_self _)

/-- Claim C1 counterexample: on `det0` in a 100x100 frame, the single retained
box has `x = y = -10 < 0` and extends to `110 > 100`, so `fetchResults` does
not clamp boxes to the frame geometry. -/
theorem fetchResults_clamping_counterexample :
    ¬ (∀ r ∈ FaceDetection.fetchResults det0 100 100 (1 / 2) 1 7,
        0 ≤ r.x ∧ 0 ≤ r.y ∧ r.x + r.width ≤ 100 ∧ r.y + r.height ≤ 100) := by
  intro h
  have h0 := h
    r0
    (by rw [det0_fetchResults_eval]; exact List.mem_singleton_self _)
  norm_num [r0] at h0

/-- Claim C1 amended: `fetchResults` applies no clamping at all; a retained
box can have negative coordinates and extend past the width-by-height extent
of the enqueued frame. -/
theorem fetchResults_box_may_leave_frame :
    ∃ (detections : ℕ → ℚ) (width height : ℤ) (detectionThreshold : ℚ)
      (r : Result),
      r ∈ FaceDetection.fetchResults detections width height
        detectionThreshold 1 7 ∧
      r.x < 0 ∧ r.y < 0 ∧ width < r.x + r.width ∧
        height < r.y + r.height := by
  refine ⟨det0, 100, 100, 1 / 2,
    r0,
    ?_, by decide, by decide, by decide, by decide⟩
  rw [det0_fetchResults_eval]
  exact List.mem_singleton_self _

/-- Evaluation of the fetch loop on `detMix`: row 0 is retained, row 1 is
skipped by the threshold test, row 2 stops the scan without being added. -/
theorem detMix_fetchResults_eval :
    FaceDetection.fetchResults detMix 100 100 (1 / 2) 3 7 =
      [r0] := by
  show FaceDetection.fetchLoop detMix 100 100 (1 / 2) 7 3 0 = _
  rw [FaceDetection.fetchLoop]
  rw [FaceDetection.fetchLoop]
  rw [FaceDetection.fetchLoop]
  norm_num [detMix, FaceDetection.fetchLoop, FaceDetection.processRow, ftrunc,
    FaceDetection.bb_enlarge_coefficient, r0]
  decide

/-- Claim C8: the loop of `FaceDetection::fetchResults` retains only
detections whose confidence is strictly above the threshold; a row at or
below the threshold never stops the scan (whatever its `image_id`), while an
above-threshold row with negative `image_id` stops the scan and contributes
nothing. -/
theorem fetchLoop_threshold_and_sentinel (detections : ℕ → ℚ)
    (width height : ℤ) (detectionThreshold : ℚ) (objectSize : ℕ) :
    (∀ fuel i r,
      r ∈ FaceDetection.fetchLoop detections width height detectionThreshold
        objectSize fuel i →
      detectionThreshold < r.confidence)
    ∧ (∀ fuel i,
      detections (i * objectSize + 2) ≤ detectionThreshold →
      FaceDetection.fetchLoop detections width height detectionThreshold
          objectSize (fuel + 1) i =
        FaceDetection.fetchLoop detections width height detectionThreshold
          objectSize fuel (i + 1))
    ∧ (∀ fuel i,
      detectionThreshold < detections (i * objectSize + 2) →
      detections (i * objectSize + 0) < 0 →
      FaceDetection.fetchLoop detections width height detectionThreshold
        objectSize (fuel + 1) i = []) := by
  refine ⟨?_, ?_, ?_⟩
  · intro fuel i r hr
    obtain ⟨j, hj, rfl⟩ :=
      mem_fetchLoop detections width height detectionThreshold objectSize
        fuel i r hr
    exact hj
  · intro fuel i h
    rw [FaceDetection.fetchLoop]
    simp only [if_pos h]
  · intro fuel i h1 h2
    rw [FaceDetection.fetchLoop]
    simp only [if_neg (not_le.mpr h1), if_pos h2]

/-- Witness for C8 on `detMix`: the retained row has confidence above `1/2`,
the below-threshold row 1 is skipped, and the above-threshold row 2 with
negative `image_id` empties the rest of the scan. -/
theorem fetchLoop_threshold_and_sentinel_witness :
    ((1 : ℚ) / 2 < 9 / 10)
    ∧ FaceDetection.fetchLoop detMix 100 100 (1 / 2) 7 1 1 =
        FaceDetection.fetchLoop detMix 100 100 (1 / 2) 7 0 2
    ∧ FaceDetection.fetchLoop detMix 100 100 (1 / 2) 7 1 2 = [] :=
  ⟨(fetchLoop_threshold_and_sentinel detMix 100 100 (1 / 2) 7).1 3 0
      r0
      (by rw [show FaceDetection.fetchLoop detMix 100 100 (1 / 2) 7 3 0 =
          FaceDetection.fetchResults detMix 100 100 (1 / 2) 3 7 from rfl,
          detMix_fetchResults_eval]; exact List.mem_singleton_self _),
    (fetchLoop_threshold_and_sentinel detMix 100 100 (1 / 2) 7).2.1 0 1
      (by norm_num [detMix]),
    (fetchLoop_threshold_and_sentinel detMix 100 100 (1 / 2) 7).2.2 0 2
      (by norm_num [detMix]) (by norm_num [detMix])⟩

/-- Claim C9: calling `FaceDetection::fetchResults` again without an
intervening `submitRequest` (so `resultsFetched` is still set) clears the
stored results and returns, leaving `results` empty. -/
theorem fetchResultsStep_refetch_clears (s : FaceDetectionState)
    (detections : ℕ → ℚ) (detectionThreshold : ℚ)
    (maxProposalCount objectSize : ℕ)
    (h1 : s.enabled = true) (h2 : s.resultsFetched = true) :
    (FaceDetection.fetchResultsStep s detections detectionThreshold
      maxProposalCount objectSize).results = [] := by
  simp [FaceDetection.fetchResultsStep, h1, h2]

/-- Witness for C9: an enabled, already-fetched state holding one result is
left with an empty `results` list by a second fetch. -/
theorem fetchResultsStep_refetch_clears_witness :
    (FaceDetection.fetchResultsStep
      { enabled := true, resultsFetched := true, enquedFrames := 0,
        width := 100, height := 100,
        results := [r0] }
      det0 (1 / 2) 1 7).results = [] :=
  fetchResultsStep_refetch_clears _ det0 (1 / 2) 1 7 rfl rfl

/-- For a list of length 4, the last element is the element at index 3. -/
theorem getLast_length_four (l : List ℕ) (h : l.length = 4) :
    l.getLast?.getD 0 = l.getD 3 0 := by
  rcases l with _ | ⟨a, _ | ⟨b, _ | ⟨c, _ | ⟨d, _ | ⟨e, tl⟩⟩⟩⟩⟩
  · simp at h
  · simp at h
  · simp at h
  · simp at h
  · rfl
  · simp at h

/-- Claim C3: `FaceDetection::read` throws `std::logic_error` exactly when
the network has more or fewer than one input, more or fewer than one output,
an output layer that is not `DetectionOutput`, no `num_classes` attribute, an
output tensor whose last dimension is not 7, or an output tensor with a
number of dimensions other than 4; otherwise it returns without throwing. -/
theorem faceDetection_read_error_iff (net : FaceDetectionNetInfo)
    (labels : List String) :
    isError (FaceDetection.read net labels) = true ↔
      net.numInputs ≠ 1 ∨ net.numOutputs ≠ 1 ∨
      net.outputLayerType ≠ "DetectionOutput" ∨ net.num_classes = none ∨
      net.outputDims.getLast?.getD 0 ≠ 7 ∨ net.outputDims.length ≠ 4 := by
  rcases net with ⟨ni, no, olt, nc, dims⟩
  by_cases hL : dims.length = 4
  · have hg : dims.getLast?.getD 0 = dims.getD 3 0 := getLast_length_four dims hL
    rcases nc with - | k <;>
      by_cases h1 : ni = 1 <;> by_cases h2 : no = 1 <;>
      by_cases h3 : olt = "DetectionOutput" <;>
      by_cases h5 : dims.getD 3 0 = 7 <;>
      simp_all [FaceDetection.read, isError]
  · rcases nc with - | k <;>
      by_cases h1 : ni = 1 <;> by_cases h2 : no = 1 <;>
      by_cases h3 : olt = "DetectionOutput" <;>
      by_cases h5 : dims.getD 3 0 = 7 <;>
      simp_all [FaceDetection.read, isError]

/-- Claim C4: `FacialLandmarksDetection::read` throws `std::logic_error`
exactly when the network has more or fewer than one input, more or fewer than
one output, an output layer not named `align_fc3`, an output layer whose type
is not `FullyConnected`, or a fully-connected out-size other than 70;
otherwise it returns without throwing. -/
theorem facialLandmarks_read_error_iff (net : FacialLandmarksNetInfo) :
    isError (FacialLandmarksDetection.read net) = true ↔
      net.numInputs ≠ 1 ∨ net.numOutputs ≠ 1 ∨
      net.outputLayerName ≠ "align_fc3" ∨
      net.outputLayerType ≠ "FullyConnected" ∨ net.out_num ≠ 70 := by
  rcases net with ⟨ni, no, oln, olt, onum⟩
  by_cases h1 : ni = 1 <;> by_cases h2 : no = 1 <;>
    by_cases h3 : oln = "align_fc3" <;>
    by_cases h4 : olt = "FullyConnected" <;>
    by_cases h5 : onum = 70 <;>
    simp_all [FacialLandmarksDetection.read,
      FacialLandmarksDetection.outputFacialLandmarksBlobName, isError]

/-- Claim C5: `BaseDetection::submitRequest` issues exactly one inference
call when the detector is enabled and a request exists, `StartAsync` in async
mode and the blocking `Infer` otherwise, and no call in any other case;
`BaseDetection::wait` performs the blocking `Wait` only when the detector is
enabled, a request exists and async mode is on, and returns with no blocking
call otherwise. -/
theorem baseDetection_submit_and_wait (enabled hasRequest isAsync : Bool) :
    (enabled = true → hasRequest = true →
      BaseDetection.submitRequest enabled hasRequest isAsync =
        (if isAsync then [InferCall.startAsyncCall] else [InferCall.inferCall]))
    ∧ (enabled = true → hasRequest = true →
      (BaseDetection.submitRequest enabled hasRequest isAsync).length = 1)
    ∧ ((enabled = false ∨ hasRequest = false) →
      BaseDetection.submitRequest enabled hasRequest isAsync = [])
    ∧ BaseDetection.wait enabled hasRequest isAsync =
        (if enabled && hasRequest && isAsync then [InferCall.waitResultReady]
         else []) := by
  cases enabled <;> cases hasRequest <;> cases isAsync <;>
    refine ⟨?_, ?_, ?_, ?_⟩ <;>
    simp [BaseDetection.submitRequest, BaseDetection.wait]

/-- Witness for C5: with an enabled detector holding a request, async mode
issues the single `StartAsync` call; a disabled detector issues nothing; and
the async wait issues the single blocking `Wait`. -/
theorem baseDetection_submit_and_wait_witness :
    BaseDetection.submitRequest true true true = [InferCall.startAsyncCall]
    ∧ (BaseDetection.submitRequest true true false).length = 1
    ∧ BaseDetection.submitRequest false true true = []
    ∧ BaseDetection.wait true true true = [InferCall.waitResultReady] :=
  ⟨(baseDetection_submit_and_wait true true true).1 rfl rfl,
    (baseDetection_submit_and_wait true true false).2.1 rfl rfl,
    (baseDetection_submit_and_wait false true true).2.2.1 (Or.inl rfl),
    (baseDetection_submit_and_wait true true true).2.2.2⟩

/-- Folding `calculateDuration` adds one call per duration. -/
theorem run_number_of_calls (durations : List ℚ) :
    ∀ s : CallStat, (CallStat.run s durations).number_of_calls =
      s.number_of_calls + durations.length := by
  induction durations with
  | nil => intro s; simp [CallStat.run]
  | cons d tl ih =>
    intro s
    show (CallStat.run (s.calculateDuration d) tl).number_of_calls = _
    rw [ih]
    simp [CallStat.calculateDuration]
    omega

/-- Folding `calculateDuration` accumulates the sum of the durations. -/
theorem run_total_duration (durations : List ℚ) :
    ∀ s : CallStat, (CallStat.run s durations).total_duration =
      s.total_duration + durations.sum := by
  induction durations with
  | nil => intro s; simp [CallStat.run]
  | cons d tl ih =>
    intro s
    show (CallStat.run (s.calculateDuration d) tl).total_duration = _
    rw [ih]
    simp [CallStat.calculateDuration]
    ring

/-- One `calculateDuration` call on a non-negative duration leaves a
non-negative smoothed duration, whatever the previous state. -/
theorem calculateDuration_smoothed_nonneg (s : CallStat) (d : ℚ)
    (hd : 0 ≤ d) : 0 ≤ (s.calculateDuration d).smoothed_duration := by
  show 0 ≤ (if s.smoothed_duration < 0 then d else s.smoothed_duration) *
    (1 - 1 / 10) + d * (1 / 10)
  by_cases h : s.smoothed_duration < 0
  · rw [if_pos h]; nlinarith [hd]
  · rw [if_neg h]; push_neg at h; nlinarith [hd, h]

/-- After at least one call on non-negative durations the smoothed duration
is non-negative. -/
theorem run_smoothed_nonneg (durations : List ℚ) :
    ∀ s : CallStat, durations ≠ [] → (∀ x ∈ durations, 0 ≤ x) →
      0 ≤ (CallStat.run s durations).smoothed_duration := by
  induction durations with
  | nil => intro s h _; exact absurd rfl h
  | cons d tl ih =>
    intro s _ hx
    rcases eq_or_ne tl [] with rfl | htl
    · show 0 ≤ (CallStat.run (s.calculateDuration d) []).smoothed_duration
      simpa [CallStat.run] using
        calculateDuration_smoothed_nonneg s d (hx d (by simp))
    · exact ih (s.calculateDuration d) htl fun x hx2 => hx x (by simp [hx2])

/-- Claim C6: `CallStat` is a moving-average latency timer: starting from the
constructor state, the first `calculateDuration` call makes the smoothed
duration equal the last call duration, every later call turns it into
`0.9 * previous + 0.1 * last`, and after any call sequence the call count and
total duration are the length and the sum of the individual durations. -/
theorem callStat_moving_average (ds : List ℚ) (d : ℚ)
    (hds : ∀ x ∈ ds, 0 ≤ x) :
    (CallStat.init.calculateDuration d).smoothed_duration = d
    ∧ (ds ≠ [] →
      (CallStat.run CallStat.init (ds ++ [d])).smoothed_duration =
        (CallStat.run CallStat.init ds).smoothed_duration * (9 / 10) +
          d * (1 / 10))
    ∧ (∀ l : List ℚ,
      (CallStat.run CallStat.init l).number_of_calls = l.length ∧
      (CallStat.run CallStat.init l).total_duration = l.sum) := by
  refine ⟨?_, ?_, ?_⟩
  · show (if (-1 : ℚ) < 0 then d else -1) * (1 - 1 / 10) + d * (1 / 10) = d
    rw [if_pos (by norm_num)]
    ring
  · intro hne
    have h0 := run_smoothed_nonneg ds CallStat.init hne hds
    have hsplit : CallStat.run CallStat.init (ds ++ [d]) =
        (CallStat.run CallStat.init ds).calculateDuration d := by
      simp [CallStat.run, List.foldl_append]
    rw [hsplit]
    show (if (CallStat.run CallStat.init ds).smoothed_duration < 0 then d
      else (CallStat.run CallStat.init ds).smoothed_duration) *
        (1 - 1 / 10) + d * (1 / 10) = _
    rw [if_neg (not_lt.mpr h0)]
    ring
  · intro l
    constructor
    · rw [run_number_of_calls]
      simp [CallStat.init]
    · rw [run_total_duration]
      show (0 : ℚ) + l.sum = l.sum
      ring

/-- Witness for C6 with the call durations 2 then 3: the first call smooths
to its own duration, the second call applies the `0.9 / 0.1` blend, and the
counters match length and sum. -/
theorem callStat_moving_average_witness :
    (CallStat.init.calculateDuration 3).smoothed_duration = 3
    ∧ (CallStat.run CallStat.init ([2] ++ [3])).smoothed_duration =
        (CallStat.run CallStat.init [2]).smoothed_duration * (9 / 10) +
          3 * (1 / 10)
    ∧ (CallStat.run CallStat.init [2, 3]).number_of_calls = [2, 3].length
    ∧ (CallStat.run CallStat.init [2, 3]).total_duration =
        ([2, 3] : List ℚ).sum :=
  have h := callStat_moving_average [2] 3
    (fun x hx => by rw [List.mem_singleton.mp hx]; norm_num)
  ⟨h.1, h.2.1 (by simp), (h.2.2 [2, 3]).1, (h.2.2 [2, 3]).2⟩

/-- Claim C7: `FacialLandmarksDetection::operator[]` returns, for face index
`idx`, exactly `n_lm` values, the `i`-th being the output-buffer entry at
offset `i + n_lm * idx`, in increasing order of `i`. -/
theorem facialLandmarks_extraction (normed_coordinates : ℕ → ℚ)
    (n_lm idx : ℕ) :
    (FacialLandmarksDetection.landmarks normed_coordinates n_lm idx).length =
        n_lm
    ∧ ∀ i, i < n_lm →
      (FacialLandmarksDetection.landmarks normed_coordinates n_lm idx).getD
          i 0 =
        normed_coordinates (i + n_lm * idx) := by
  constructor
  · simp [FacialLandmarksDetection.landmarks]
  · intro i hi
    simp [FacialLandmarksDetection.landmarks, List.getD,
      List.getElem?_range hi]

/-- Witness for C7 on `coords0` with `n_lm = 2`, `idx = 1`: two landmarks are
returned, read from offsets 2 and 3. -/
theorem facialLandmarks_extraction_witness :
    (FacialLandmarksDetection.landmarks coords0 2 1).length = 2
    ∧ (FacialLandmarksDetection.landmarks coords0 2 1).getD 0 0 =
        coords0 (0 + 2 * 1)
    ∧ (FacialLandmarksDetection.landmarks coords0 2 1).getD 1 0 =
        coords0 (1 + 2 * 1) :=
  ⟨(facialLandmarks_extraction coords0 2 1).1,
    (facialLandmarks_extraction coords0 2 1).2 0 (by norm_num),
    (facialLandmarks_extraction coords0 2 1).2 1 (by norm_num)⟩

/-- Claim C10 counterexample: for a disabled landmarks detector,
`FacialLandmarksDetection::enqueue` returns before touching the batch even
though `enquedFaces` is below `maxBatch`, so it does not increment
`enquedFaces` by one. -/
theorem facialLandmarks_enqueue_counterexample :
    flDisabled.enquedFaces ≠ flDisabled.maxBatch ∧
    ¬ (FacialLandmarksDetection.enqueue flDisabled).enquedFaces =
        flDisabled.enquedFaces + 1 := by
  constructor
  · decide
  · decide

/-- Claim C10 amended: the invariant `0 ≤ enquedFaces ≤ maxBatch` is
preserved by `enqueue` and `submitRequest`; `enqueue` leaves the state
unchanged when the batch is full or when the detector is disabled, increments
`enquedFaces` by exactly one otherwise, and `submitRequest` resets
`enquedFaces` to zero whenever it was non-zero. -/
theorem facialLandmarks_batch_invariant (s : FacialLandmarksState)
    (hinv : 0 ≤ s.enquedFaces ∧ s.enquedFaces ≤ s.maxBatch) :
    (0 ≤ (FacialLandmarksDetection.enqueue s).enquedFaces ∧
      (FacialLandmarksDetection.enqueue s).enquedFaces ≤ s.maxBatch)
    ∧ (0 ≤ (FacialLandmarksDetection.submitRequest s).enquedFaces ∧
      (FacialLandmarksDetection.submitRequest s).enquedFaces ≤ s.maxBatch)
    ∧ (s.enquedFaces = s.maxBatch → FacialLandmarksDetection.enqueue s = s)
    ∧ (s.enabled = false → FacialLandmarksDetection.enqueue s = s)
    ∧ (s.enabled = true → s.enquedFaces ≠ s.maxBatch →
      (FacialLandmarksDetection.enqueue s).enquedFaces = s.enquedFaces + 1)
    ∧ (s.enquedFaces ≠ 0 →
      (FacialLandmarksDetection.submitRequest s).enquedFaces = 0) := by
  obtain ⟨h0, h1⟩ := hinv
  refine ⟨?_, ?_, ?_, ?_, ?_, ?_⟩
  · simp only [FacialLandmarksDetection.enqueue]
    split_ifs <;> simp_all <;> omega
  · simp only [FacialLandmarksDetection.submitRequest]
    split_ifs <;> simp_all <;> omega
  · intro hfull
    simp [FacialLandmarksDetection.enqueue, hfull]
  · intro hdis
    simp [FacialLandmarksDetection.enqueue, hdis]
  · intro hen hne
    simp [FacialLandmarksDetection.enqueue, hen, hne]
  · intro hne
    simp [FacialLandmarksDetection.submitRequest, hne]

/-- Witness for the amended C10 on concrete states: an enabled detector with
3 of 16 faces enqueues to 4 and submits back to 0 while keeping the
invariant; a full detector and a disabled detector are left unchanged. -/
theorem facialLandmarks_batch_invariant_witness :
    (0 ≤ (FacialLandmarksDetection.enqueue flEnabled).enquedFaces ∧
      (FacialLandmarksDetection.enqueue flEnabled).enquedFaces ≤
        flEnabled.maxBatch)
    ∧ (FacialLandmarksDetection.enqueue flEnabled).enquedFaces =
        flEnabled.enquedFaces + 1
    ∧ (FacialLandmarksDetection.submitRequest flEnabled).enquedFaces = 0
    ∧ FacialLandmarksDetection.enqueue flFull = flFull
    ∧ FacialLandmarksDetection.enqueue flDisabled = flDisabled :=
  ⟨(facialLandmarks_batch_invariant flEnabled ⟨by decide, by decide⟩).1,
    (facialLandmarks_batch_invariant flEnabled
      ⟨by decide, by decide⟩).2.2.2.2.1 (by decide) (by decide),
    (facialLandmarks_batch_invariant flEnabled
      ⟨by decide, by decide⟩).2.2.2.2.2 (by decide),
    (facialLandmarks_batch_invariant flFull
      ⟨by decide, by decide⟩).2.2.1 (by decide),
    (facialLandmarks_batch_invariant flDisabled
      ⟨by decide, by decide⟩).2.2.2.1 (by decide)⟩
